import Mathlib

/-!
Shallow embedding of the Surveillance & Alert Engine of `Police_Cam.py`
(class `PoliceAISystem`).  Pure data is modelled directly; the opaque
external capabilities (face detection/encoding, vector distance, frame
resizing, camera, clock) are modelled as explicit function or value
parameters, and the engine's mutable state as an explicit record that the
operations transform.  Numeric values (distances, thresholds, confidences)
are modelled as rationals.
-/

namespace PoliceCam

/-- A face feature vector (encoding): a fixed-length numeric vector that the
engine never inspects itself, it only hands it to the external distance
capability. -/
abbrev Encoding := List ℚ

/-- A 2-D pixel buffer.  Opaque to the engine: frames are only stored,
resized and passed to the external detection capability. -/
abbrev Frame := List (List ℚ)

/-- One record of the append-only alert log, the dict literal built in
`_trigger_alert` (lines 162-168 of `Police_Cam.py`). -/
structure Alert where
  timestamp : String
  suspect_name : String
  suspect_details : String
  confidence : ℚ
  location : String
deriving Repr, DecidableEq

/-- The object returned by `cv2.VideoCapture(camera_index)`: constructing it
never fails, `isOpened()` tells whether the camera could actually be
opened. -/
structure CameraCap where
  opened : Bool
deriving Repr, DecidableEq

/-- The mutable attributes of `PoliceAISystem` set up in `__init__`
(lines 18-28).  `detection_thread` records whether a surveillance-loop
thread object has been stored. -/
structure SystemState where
  known_faces : List Encoding
  known_names : List String
  known_details : List String
  surveillance_active : Bool
  camera_cap : Option CameraCap
  current_frame : Option Frame
  detection_thread : Bool
  alert_active : Bool
  confidence_threshold : ℚ
  alert_log : List Alert
deriving Repr, DecidableEq

/-- The state right after `__init__`: empty registry, inactive, threshold
0.6, empty alert log. -/
def initial_state : SystemState :=
  { known_faces := []
    known_names := []
    known_details := []
    surveillance_active := false
    camera_cap := none
    current_frame := none
    detection_thread := false
    alert_active := false
    confidence_threshold := 6/10
    alert_log := [] }

/-- `np.argmin`: the index of the first occurrence of the minimum of the
array.  NumPy raises on an empty array; every call site in the engine is
guarded by a non-empty registry, so the value on `[]` is an inert 0. -/
def npArgmin : List ℚ → Nat
  | [] => 0
  | d :: ds =>
    let m := ds.foldl min d
    (d :: ds).findIdx (fun x => decide (x = m))

/-- The distance `face_distances[best_match_index]` selected on line 141;
the 1 default stands for an index error that the non-empty guard makes
unreachable. -/
def bestDistance (face_distances : List ℚ) : ℚ :=
  face_distances.getD (npArgmin face_distances) 1

/-- `face_recognition.face_distance(known_faces, face_encoding)`: one
distance per registry entry, computed by the opaque distance capability
`dist`. -/
def face_distance (dist : Encoding → Encoding → ℚ) (known_faces : List Encoding)
    (face_encoding : Encoding) : List ℚ :=
  known_faces.map (fun known => dist known face_encoding)

/-- `face_recognition.compare_faces` over precomputed distances: the library
returns `list(face_distance(...) <= tolerance)`. -/
def compare_faces_tol (tolerance : ℚ) (face_distances : List ℚ) : List Bool :=
  face_distances.map (fun d => decide (d ≤ tolerance))

/-- The accept/reject decision of line 143,
`matches[best_match_index] and face_distances[best_match_index] < self.confidence_threshold`,
where `matches` is `compare_faces` at its default tolerance 0.6
(line 138). -/
def acceptDecision (confidence_threshold : ℚ) (face_distances : List ℚ) : Bool :=
  let matchFlags := compare_faces_tol (6/10) face_distances
  let best_match_index := npArgmin face_distances
  matchFlags.getD best_match_index false &&
    decide (face_distances.getD best_match_index 1 < confidence_threshold)

/-- State plus the observable side effects of one `_trigger_alert` call:
whether a frame image was written to `alerts/`, whether the alert sound was
played, whether a cooldown reset timer was started. -/
structure TriggerResult where
  state : SystemState
  imageWritten : Bool
  soundPlayed : Bool
  timerStarted : Bool
deriving Repr, DecidableEq

/-- `_trigger_alert` (lines 154-181): while `alert_active` the call returns
at once with no effect; otherwise it sets `alert_active`, appends exactly
one alert record, writes the frame image, plays the sound and starts the
5-second reset timer.  `now` is the clock capability's reading. -/
def trigger_alert (s : SystemState) (now : String) (name details : String)
    (confidence : ℚ) : TriggerResult :=
  if s.alert_active then
    { state := s, imageWritten := false, soundPlayed := false, timerStarted := false }
  else
    let alert_data : Alert :=
      { timestamp := now
        suspect_name := name
        suspect_details := details
        confidence := confidence
        location := "Camera Feed" }
    { state := { s with alert_active := true, alert_log := s.alert_log ++ [alert_data] }
      imageWritten := true
      soundPlayed := true
      timerStarted := true }

/-- `_reset_alert` (lines 207-209), run by the cooldown timer. -/
def reset_alert (s : SystemState) : SystemState :=
  { s with alert_active := false }

/-- The body of the per-face loop of `_detect_faces` (lines 136-149) for one
detected `face_encoding`: compute matches and distances against the
registry, take the argmin, and on an accepted match trigger the alert with
`confidence = 1 - face_distances[best_match_index]`. -/
def faceStep (dist : Encoding → Encoding → ℚ) (now : String) (s : SystemState)
    (face_encoding : Encoding) : TriggerResult :=
  let face_distances := face_distance dist s.known_faces face_encoding
  let best_match_index := npArgmin face_distances
  if acceptDecision s.confidence_threshold face_distances then
    let suspect_name := s.known_names.getD best_match_index ""
    let suspect_details := s.known_details.getD best_match_index ""
    let confidence := 1 - face_distances.getD best_match_index 1
    trigger_alert s now suspect_name suspect_details confidence
  else
    { state := s, imageWritten := false, soundPlayed := false, timerStarted := false }

/-- State plus accumulated side effects of one `_detect_faces` call. -/
structure DetectOutcome where
  state : SystemState
  images : Nat
  sounds : Nat
deriving Repr, DecidableEq

/-- `_detect_faces` (lines 125-152): downsample the frame through the
external `resize` capability, obtain the detected face encodings through the
external `encodingsOf` capability, and run the per-face loop over them,
threading the engine state. -/
def detect_faces (dist : Encoding → Encoding → ℚ) (resize : Frame → Frame)
    (encodingsOf : Frame → List Encoding) (now : String) (s : SystemState)
    (frame : Frame) : DetectOutcome :=
  let small_frame := resize frame
  let face_encodings := encodingsOf small_frame
  face_encodings.foldl
    (fun acc face_encoding =>
      let r := faceStep dist now acc.state face_encoding
      { state := r.state
        images := acc.images + (if r.imageWritten then 1 else 0)
        sounds := acc.sounds + (if r.soundPlayed then 1 else 0) })
    { state := s, images := 0, sounds := 0 }

/-- State plus observables of one pass of the surveillance loop body. -/
structure LoopResult where
  state : SystemState
  detectionInvoked : Bool
  images : Nat
  sounds : Nat
deriving Repr, DecidableEq

/-- One iteration of the body of `_surveillance_loop` (lines 112-123):
`ret` and `frame` are the camera read result; on a failed read the cycle is
skipped; otherwise the frame is published to `current_frame` and, only if
the registry is non-empty, handed to `_detect_faces`. -/
def surveillanceIteration (dist : Encoding → Encoding → ℚ) (resize : Frame → Frame)
    (encodingsOf : Frame → List Encoding) (now : String) (s : SystemState)
    (ret : Bool) (frame : Frame) : LoopResult :=
  if !ret then
    { state := s, detectionInvoked := false, images := 0, sounds := 0 }
  else
    let s1 := { s with current_frame := some frame }
    if s1.known_faces.length > 0 then
      let r := detect_faces dist resize encodingsOf now s1 frame
      { state := r.state, detectionInvoked := true, images := r.images, sounds := r.sounds }
    else
      { state := s1, detectionInvoked := false, images := 0, sounds := 0 }

/-- `add_suspect` (lines 46-62): `face_encodings` is what the external
capability extracted from the loaded image; with at least one encoding the
first is appended to the registry together with name and details and the
call reports success, otherwise the state is unchanged and it reports
failure. -/
def add_suspect (s : SystemState) (face_encodings : List Encoding)
    (name details : String) : SystemState × Bool :=
  match face_encodings with
  | [] => (s, false)
  | e :: _ =>
    ({ s with
        known_faces := s.known_faces ++ [e]
        known_names := s.known_names ++ [name]
        known_details := s.known_details ++ [details] }, true)

/-- `add_suspect_from_array` (lines 64-78): identical registry update, the
image just arrives as an in-memory array before the external capability
extracts `face_encodings` from it. -/
def add_suspect_from_array (s : SystemState) (face_encodings : List Encoding)
    (name details : String) : SystemState × Bool :=
  match face_encodings with
  | [] => (s, false)
  | e :: _ =>
    ({ s with
        known_faces := s.known_faces ++ [e]
        known_names := s.known_names ++ [name]
        known_details := s.known_details ++ [details] }, true)

/-- State plus observables of one `start_surveillance` call. -/
structure StartResult where
  state : SystemState
  ok : Bool
  cameraOpenAttempted : Bool
  loopStarted : Bool
deriving Repr, DecidableEq

/-- `start_surveillance` (lines 80-97): an already active engine returns
`False` at once; otherwise the capture object `cap` returned by
`cv2.VideoCapture(camera_index)` is stored, and only if it reports opened is
the active flag set and the surveillance-loop thread started. -/
def start_surveillance (s : SystemState) (cap : CameraCap) : StartResult :=
  if s.surveillance_active then
    { state := s, ok := false, cameraOpenAttempted := false, loopStarted := false }
  else
    let s1 := { s with camera_cap := some cap }
    if !cap.opened then
      { state := s1, ok := false, cameraOpenAttempted := true, loopStarted := false }
    else
      { state := { s1 with surveillance_active := true, detection_thread := true }
        ok := true
        cameraOpenAttempted := true
        loopStarted := true }

/-- The JSON values that `json.dump` / `json.load` exchange with a log file.
Python round-trips strings and (repr-serialised) floats exactly, so the file
contents are modelled at the level of this value tree; numbers are the
rationals the engine computes. -/
inductive Json where
  | str : String → Json
  | num : ℚ → Json
  | arr : List Json → Json
  | obj : List (String × Json) → Json

/-- The key/value pairs of the `alert_data` dict of `_trigger_alert`
(lines 162-168), in the order the source writes them. -/
def alertFields (a : Alert) : List (String × Json) :=
  [("timestamp", Json.str a.timestamp),
   ("suspect_name", Json.str a.suspect_name),
   ("suspect_details", Json.str a.suspect_details),
   ("confidence", Json.num a.confidence),
   ("location", Json.str a.location)]

/-- One alert record as the JSON object `json.dump` serialises. -/
def alertToJson (a : Alert) : Json :=
  Json.obj (alertFields a)

/-- The keys of a JSON object (empty for non-objects). -/
def jsonKeys : Json → List String
  | Json.obj fields => fields.map Prod.fst
  | _ => []

/-- `save_logs` (lines 228-236): the file written by
`json.dump(self.alert_log, f, indent=2)` holds the alert log as an ordered
JSON array of alert objects. -/
def save_logs_json (s : SystemState) : Json :=
  Json.arr (s.alert_log.map alertToJson)

/-- Modelled from the spec: reading one alert object back from a written log
file.  The repository only writes the file; the spec's round-trip property
("persist() followed by reading the written file back", "field order
insensitivity") fixes the reader: fields are looked up by name, independent
of their position in the object. -/
def jsonToAlert : Json → Option Alert
  | Json.obj fields =>
    match fields.lookup "timestamp", fields.lookup "suspect_name",
        fields.lookup "suspect_details", fields.lookup "confidence",
        fields.lookup "location" with
    | some (Json.str ts), some (Json.str n), some (Json.str d),
        some (Json.num c), some (Json.str loc) =>
      some { timestamp := ts, suspect_name := n, suspect_details := d
             confidence := c, location := loc }
    | _, _, _, _, _ => none
  | _ => none

/-- Modelled from the spec: reading a sequence of alert objects back,
failing if any element fails to parse. -/
def jsonToAlertList : List Json → Option (List Alert)
  | [] => some []
  | j :: js =>
    match jsonToAlert j, jsonToAlertList js with
    | some a, some rest => some (a :: rest)
    | _, _ => none

/-- Modelled from the spec: reading a whole written log file back as the
sequence of alert records it holds. -/
def jsonToAlerts : Json → Option (List Alert)
  | Json.arr xs => jsonToAlertList xs
  | _ => none

/-- The two registry invariants the detection path relies on: names and
details run in lockstep with the face encodings. -/
def registryInvariant (s : SystemState) : Prop :=
  s.known_names.length = s.known_faces.length ∧
    s.known_details.length = s.known_faces.length

/-- A sequence of accepted matches, each reaching `_trigger_alert` in turn
(name, details, confidence); returns the final state together with how many
alert images were written and how many alert sounds were played. -/
def runTriggers (now : String) (s : SystemState) :
    List (String × String × ℚ) → SystemState × Nat × Nat
  | [] => (s, 0, 0)
  | m :: rest =>
    let r := trigger_alert s now m.1 m.2.1 m.2.2
    let res := runTriggers now r.state rest
    (res.1, (if r.imageWritten then 1 else 0) + res.2.1,
      (if r.soundPlayed then 1 else 0) + res.2.2)

/-! Helper lemmas about `npArgmin`. -/

theorem foldlMin_mem (ds : List ℚ) (d : ℚ) : ds.foldl min d ∈ d :: ds := by
  induction ds generalizing d with
  | nil => simp
  | cons e es ih =>
    have h := ih (min d e)
    simp only [List.foldl_cons]
    rcases List.mem_cons.mp h with h1 | h2
    · rcases min_choice d e with hm | hm
      · rw [h1, hm]; exact List.mem_cons_self _ _
      · rw [h1, hm]; exact List.mem_cons_of_mem _ (List.mem_cons_self _ _)
    · exact List.mem_cons_of_mem _ (List.mem_cons_of_mem _ h2)

theorem foldlMin_le (ds : List ℚ) (d : ℚ) : ∀ x ∈ d :: ds, ds.foldl min d ≤ x := by
  induction ds generalizing d with
  | nil =>
    intro x hx
    rw [List.mem_singleton] at hx
    simp [hx]
  | cons e es ih =>
    intro x hx
    simp only [List.foldl_cons]
    have hself := ih (min d e) (min d e) (List.mem_cons_self _ _)
    rcases List.mem_cons.mp hx with h1 | h2
    · subst h1
      exact le_trans hself (min_le_left _ _)
    · rcases List.mem_cons.mp h2 with h3 | h4
      · subst h3
        exact le_trans hself (min_le_right _ _)
      · exact ih (min d e) x (List.mem_cons_of_mem _ h4)

theorem npArgmin_lt_length (l : List ℚ) (h : l ≠ []) : npArgmin l < l.length := by
  match l with
  | d :: ds =>
    simp only [npArgmin]
    exact List.findIdx_lt_length_of_exists
      ⟨ds.foldl min d, foldlMin_mem ds d, by simp⟩

theorem getD_eq_getElem_of_lt {α : Type} (l : List α) (i : Nat) (h : i < l.length)
    (dflt : α) : l.getD i dflt = l[i] := by
  rw [List.getD_eq_getElem?_getD, List.getElem?_eq_getElem h, Option.getD_some]

theorem getD_map_of_lt {α β : Type} (f : α → β) (l : List α) (i : Nat)
    (h : i < l.length) (b : β) (q : α) : (l.map f).getD i b = f (l.getD i q) := by
  have hm : i < (l.map f).length := by simpa using h
  rw [getD_eq_getElem_of_lt _ _ hm, getD_eq_getElem_of_lt _ _ h, List.getElem_map]

theorem getD_findIdx_eq (l : List ℚ) (m : ℚ) (hm : m ∈ l) :
    l.getD (l.findIdx (fun y => decide (y = m))) 1 = m := by
  induction l with
  | nil => cases hm
  | cons a l ih =>
    by_cases ha : a = m
    · simp [List.findIdx_cons, ha]
    · have hml : m ∈ l := by
        rcases List.mem_cons.mp hm with h1 | h2
        · exact absurd h1.symm ha
        · exact h2
      have hpa : (fun y => decide (y = m)) a = false := by simp [ha]
      simp only [List.findIdx_cons, hpa, cond_false, List.getD_cons_succ]
      exact ih hml

theorem bestDistance_eq_min (d : ℚ) (ds : List ℚ) :
    bestDistance (d :: ds) = ds.foldl min d := by
  have : npArgmin (d :: ds) =
      (d :: ds).findIdx (fun y => decide (y = ds.foldl min d)) := rfl
  rw [bestDistance, this, getD_findIdx_eq _ _ (foldlMin_mem ds d)]

theorem bestDistance_le (l : List ℚ) (h : l ≠ []) : ∀ x ∈ l, bestDistance l ≤ x := by
  match l with
  | d :: ds =>
    intro x hx
    rw [bestDistance_eq_min]
    exact foldlMin_le ds d x hx

/-- The line-143 decision, rewritten over the selected best distance: the
`compare_faces` flag at the argmin is exactly "best distance at most the
0.6 default tolerance". -/
theorem acceptDecision_eq (t : ℚ) (ds : List ℚ) (h : ds ≠ []) :
    acceptDecision t ds
      = (decide (bestDistance ds ≤ 6/10) && decide (bestDistance ds < t)) := by
  have hlt := npArgmin_lt_length ds h
  simp only [acceptDecision, compare_faces_tol, bestDistance]
  rw [getD_map_of_lt (fun d => decide (d ≤ 6/10)) ds (npArgmin ds) hlt false 1]

theorem trigger_alert_active (s : SystemState) (now name details : String) (c : ℚ)
    (h : s.alert_active = true) :
    trigger_alert s now name details c
      = { state := s, imageWritten := false, soundPlayed := false, timerStarted := false } := by
  simp [trigger_alert, h]

theorem trigger_alert_registry (s : SystemState) (now name details : String) (c : ℚ) :
    (trigger_alert s now name details c).state.known_faces = s.known_faces ∧
    (trigger_alert s now name details c).state.known_names = s.known_names ∧
    (trigger_alert s now name details c).state.known_details = s.known_details := by
  by_cases h : s.alert_active <;> simp [trigger_alert, h]

theorem faceStep_registry (dist : Encoding → Encoding → ℚ) (now : String)
    (s : SystemState) (enc : Encoding) :
    (faceStep dist now s enc).state.known_faces = s.known_faces ∧
    (faceStep dist now s enc).state.known_names = s.known_names ∧
    (faceStep dist now s enc).state.known_details = s.known_details := by
  by_cases h : acceptDecision s.confidence_threshold (face_distance dist s.known_faces enc)
      = true <;>
    simp [faceStep, h, trigger_alert_registry]

theorem detectFold_registry (dist : Encoding → Encoding → ℚ) (now : String)
    (encs : List Encoding) (acc : DetectOutcome) :
    ((encs.foldl
        (fun acc face_encoding =>
          let r := faceStep dist now acc.state face_encoding
          { state := r.state
            images := acc.images + (if r.imageWritten then 1 else 0)
            sounds := acc.sounds + (if r.soundPlayed then 1 else 0) }) acc).state.known_faces
        = acc.state.known_faces) ∧
    ((encs.foldl
        (fun acc face_encoding =>
          let r := faceStep dist now acc.state face_encoding
          { state := r.state
            images := acc.images + (if r.imageWritten then 1 else 0)
            sounds := acc.sounds + (if r.soundPlayed then 1 else 0) }) acc).state.known_names
        = acc.state.known_names) ∧
    ((encs.foldl
        (fun acc face_encoding =>
          let r := faceStep dist now acc.state face_encoding
          { state := r.state
            images := acc.images + (if r.imageWritten then 1 else 0)
            sounds := acc.sounds + (if r.soundPlayed then 1 else 0) }) acc).state.known_details
        = acc.state.known_details) := by
  induction encs generalizing acc with
  | nil => exact ⟨rfl, rfl, rfl⟩
  | cons e rest ih =>
    simp only [List.foldl_cons]
    have hr := faceStep_registry dist now acc.state e
    have hi := ih
      { state := (faceStep dist now acc.state e).state
        images := acc.images + (if (faceStep dist now acc.state e).imageWritten then 1 else 0)
        sounds := acc.sounds + (if (faceStep dist now acc.state e).soundPlayed then 1 else 0) }
    exact ⟨hi.1.trans hr.1, hi.2.1.trans hr.2.1, hi.2.2.trans hr.2.2⟩

theorem detect_faces_registry (dist : Encoding → Encoding → ℚ) (resize : Frame → Frame)
    (encodingsOf : Frame → List Encoding) (now : String) (s : SystemState) (frame : Frame) :
    (detect_faces dist resize encodingsOf now s frame).state.known_faces = s.known_faces ∧
    (detect_faces dist resize encodingsOf now s frame).state.known_names = s.known_names ∧
    (detect_faces dist resize encodingsOf now s frame).state.known_details = s.known_details := by
  simp only [detect_faces]
  exact detectFold_registry dist now (encodingsOf (resize frame))
    { state := s, images := 0, sounds := 0 }

theorem jsonToAlert_alertToJson (a : Alert) : jsonToAlert (alertToJson a) = some a := rfl

theorem jsonToAlert_reverse (a : Alert) :
    jsonToAlert (Json.obj (alertFields a).reverse) = some a := rfl

theorem jsonToAlertList_map (l : List Alert) :
    jsonToAlertList (l.map alertToJson) = some l := by
  induction l with
  | nil => rfl
  | cons a rest ih => simp [jsonToAlertList, jsonToAlert_alertToJson, ih]

/-! Claim theorems. -/

/-- Counterexample to claim C1 ("accepted iff minimum distance is strictly
below confidence_threshold; no other condition participates"): with the
configurable threshold 0.9 and a single registry entry at distance 0.7, line
143 rejects — the `compare_faces` flag at its default tolerance 0.6 is false
— although 0.7 < 0.9. -/
theorem C1_counterexample :
    ¬ (acceptDecision (9/10) [7/10] = true ↔ bestDistance [7/10] < 9/10) := by
  intro hiff
  have h1 : acceptDecision (9/10) [7/10] = false := by
    simp [acceptDecision, compare_faces_tol, npArgmin, List.findIdx, List.findIdx.go]
    norm_num
  have h2 : bestDistance [7/10] < 9/10 := by
    simp [bestDistance, npArgmin, List.findIdx, List.findIdx.go]
    norm_num
  rw [h1] at hiff
  exact Bool.false_ne_true (hiff.mpr h2)

/-- Claim C1 as amended: for a frame with at least one detected face and a
non-empty registry (non-empty distance row), the best match is accepted iff
its minimum distance is strictly below the configured confidence_threshold
AND at most 0.6, the fixed default tolerance of the `compare_faces` call on
line 138, which is a second condition in the decision; the selected best
distance is indeed the minimum of the row. -/
theorem C1_accept_iff (t : ℚ) (ds : List ℚ) (h : ds ≠ []) :
    (acceptDecision t ds = true ↔ bestDistance ds ≤ 6/10 ∧ bestDistance ds < t) ∧
      ∀ x ∈ ds, bestDistance ds ≤ x := by
  constructor
  · rw [acceptDecision_eq t ds h]
    simp
  · exact bestDistance_le ds h

/-- Witness for C1_accept_iff at the one-entry distance row [1/2] and the
default threshold 0.6. -/
theorem C1_accept_iff_witness :
    ((acceptDecision (6/10) [1/2] = true ↔
        bestDistance [1/2] ≤ 6/10 ∧ bestDistance [1/2] < 6/10) ∧
      ∀ x ∈ [(1 : ℚ)/2], bestDistance [1/2] ≤ x) :=
  C1_accept_iff (6/10) [1/2] (by simp)

/-- Claim C2: while `alert_active` is true, any sequence of further accepted
matches reaching `_trigger_alert` appends zero alert records, writes zero
alert images and plays zero sounds (the state is untouched); from the idle
state one accepted match appends exactly one record and flips the debouncer
to active. -/
theorem C2_debounce (now : String) (s : SystemState) :
    (s.alert_active = true → ∀ ms, runTriggers now s ms = (s, 0, 0)) ∧
    (s.alert_active = false → ∀ name details c,
      (trigger_alert s now name details c).state.alert_log
          = s.alert_log ++
            [{ timestamp := now, suspect_name := name, suspect_details := details,
               confidence := c, location := "Camera Feed" }] ∧
        (trigger_alert s now name details c).state.alert_active = true) := by
  constructor
  · intro h ms
    induction ms with
    | nil => rfl
    | cons m rest ih => simp [runTriggers, trigger_alert, h, ih]
  · intro h name details c
    simp [trigger_alert, h]

/-- Witness for C2_debounce: an active engine drops a further match with no
effect; an idle engine logs exactly one record. -/
theorem C2_debounce_witness :
    runTriggers "t" { initial_state with alert_active := true } [("n", "d", 1/2)]
        = ({ initial_state with alert_active := true }, 0, 0) ∧
      (trigger_alert initial_state "t" "n" "d" (1/2)).state.alert_log
          = [{ timestamp := "t", suspect_name := "n", suspect_details := "d",
               confidence := 1/2, location := "Camera Feed" }] ∧
      (trigger_alert initial_state "t" "n" "d" (1/2)).state.alert_active = true := by
  refine ⟨(C2_debounce "t" _).1 rfl _, ?_⟩
  have h := (C2_debounce "t" initial_state).2 rfl "n" "d" (1/2)
  exact ⟨h.1, h.2⟩

/-- Claim C3: acceptance is monotone in the threshold — a fixed best-match
distance d with t1 ≤ d < t2 that is accepted under threshold t2 is rejected
under threshold t1. -/
theorem C3_threshold_monotone (t1 t2 : ℚ) (ds : List ℚ)
    (h12 : t1 < t2) (hd1 : t1 ≤ bestDistance ds) (hd2 : bestDistance ds < t2)
    (hacc : acceptDecision t2 ds = true) : acceptDecision t1 ds = false := by
  have hfalse : decide (List.getD ds (npArgmin ds) 1 < t1) = false :=
    decide_eq_false (not_lt.mpr hd1)
  simp only [acceptDecision]
  rw [hfalse]
  exact Bool.and_false _

/-- Witness for C3_threshold_monotone with d = 1/2, t1 = 1/2, t2 = 7/10. -/
theorem C3_threshold_monotone_witness : acceptDecision (1/2) [1/2] = false := by
  have hb : bestDistance [1/2] = 1/2 := by
    simp [bestDistance, npArgmin, List.findIdx, List.findIdx.go]
  exact C3_threshold_monotone (1/2) (7/10) [1/2] (by norm_num) hb.ge
    (by rw [hb]; norm_num)
    (by simp [acceptDecision, compare_faces_tol, npArgmin, List.findIdx, List.findIdx.go]
        norm_num)

/-- Claim C4: while the suspect registry is empty, one pass of the
surveillance loop never invokes the face-detection capability and produces
no match and no alert, whatever the frame and the read result. -/
theorem C4_empty_registry (dist : Encoding → Encoding → ℚ) (resize : Frame → Frame)
    (encodingsOf : Frame → List Encoding) (now : String) (s : SystemState)
    (ret : Bool) (frame : Frame) (h : s.known_faces = []) :
    (surveillanceIteration dist resize encodingsOf now s ret frame).detectionInvoked
        = false ∧
    (surveillanceIteration dist resize encodingsOf now s ret frame).state.alert_log
        = s.alert_log ∧
    (surveillanceIteration dist resize encodingsOf now s ret frame).state.alert_active
        = s.alert_active ∧
    (surveillanceIteration dist resize encodingsOf now s ret frame).images = 0 ∧
    (surveillanceIteration dist resize encodingsOf now s ret frame).sounds = 0 := by
  cases ret <;> simp [surveillanceIteration, h]

/-- Witness for C4_empty_registry on the freshly initialised engine and a
successfully read frame. -/
theorem C4_empty_registry_witness :
    (surveillanceIteration (fun _ _ => 0) id (fun _ => [[0]]) "t" initial_state
        true []).detectionInvoked = false ∧
    (surveillanceIteration (fun _ _ => 0) id (fun _ => [[0]]) "t" initial_state
        true []).state.alert_log = initial_state.alert_log ∧
    (surveillanceIteration (fun _ _ => 0) id (fun _ => [[0]]) "t" initial_state
        true []).state.alert_active = initial_state.alert_active ∧
    (surveillanceIteration (fun _ _ => 0) id (fun _ => [[0]]) "t" initial_state
        true []).images = 0 ∧
    (surveillanceIteration (fun _ _ => 0) id (fun _ => [[0]]) "t" initial_state
        true []).sounds = 0 :=
  C4_empty_registry (fun _ _ => 0) id (fun _ => [[0]]) "t" initial_state true [] rfl

/-- Claim C5: a registration whose image yields zero face encodings reports
failure and leaves the whole engine state — in particular the three registry
lists — unchanged, for both registration entry points. -/
theorem C5_register_no_face (s : SystemState) (name details : String) :
    add_suspect s [] name details = (s, false) ∧
      add_suspect_from_array s [] name details = (s, false) :=
  ⟨rfl, rfl⟩

/-- Claim C6: persisting the in-memory alert log with `save_logs` and
reading the written JSON array back yields exactly the same sequence of
alert records with the same field values; parsing is insensitive to the
order of the fields inside each record object. -/
theorem C6_persist_roundtrip (s : SystemState) :
    jsonToAlerts (save_logs_json s) = some s.alert_log ∧
      ∀ a : Alert, jsonToAlert (Json.obj (alertFields a).reverse) = some a := by
  refine ⟨?_, fun a => jsonToAlert_reverse a⟩
  simp [jsonToAlerts, save_logs_json, jsonToAlertList_map]

/-- Claim C7: the alert record appended by an accepted match from the idle
state carries exactly the fields timestamp, suspect_name, suspect_details,
confidence and location; location is the constant "Camera Feed", name and
details are those of the best-match registry entry, and confidence is 1
minus the best-match distance. -/
theorem C7_alert_record_shape (dist : Encoding → Encoding → ℚ) (now : String)
    (s : SystemState) (enc : Encoding)
    (hidle : s.alert_active = false)
    (hacc : acceptDecision s.confidence_threshold (face_distance dist s.known_faces enc)
        = true) :
    (faceStep dist now s enc).state.alert_log
        = s.alert_log ++
          [{ timestamp := now
             suspect_name :=
               s.known_names.getD (npArgmin (face_distance dist s.known_faces enc)) ""
             suspect_details :=
               s.known_details.getD (npArgmin (face_distance dist s.known_faces enc)) ""
             confidence := 1 - bestDistance (face_distance dist s.known_faces enc)
             location := "Camera Feed" }] ∧
    ∀ a : Alert, jsonKeys (alertToJson a)
        = ["timestamp", "suspect_name", "suspect_details", "confidence", "location"] := by
  refine ⟨?_, fun a => rfl⟩
  simp [faceStep, hacc, trigger_alert, hidle, bestDistance]

/-- Witness for C7_alert_record_shape: one registered suspect at distance
1/2 under the default threshold. -/
theorem C7_alert_record_shape_witness :
    (faceStep (fun _ _ => (1 : ℚ)/2) "t"
        { initial_state with
            known_faces := [[0]], known_names := ["Alice"], known_details := ["theft"] }
        [0]).state.alert_log
        = { initial_state with
              known_faces := [[0]], known_names := ["Alice"],
              known_details := ["theft"] }.alert_log ++
          [{ timestamp := "t"
             suspect_name :=
               ({ initial_state with
                    known_faces := [[0]], known_names := ["Alice"],
                    known_details := ["theft"] } : SystemState).known_names.getD
                 (npArgmin (face_distance (fun _ _ => (1 : ℚ)/2) [[0]] [0])) ""
             suspect_details :=
               ({ initial_state with
                    known_faces := [[0]], known_names := ["Alice"],
                    known_details := ["theft"] } : SystemState).known_details.getD
                 (npArgmin (face_distance (fun _ _ => (1 : ℚ)/2) [[0]] [0])) ""
             confidence := 1 - bestDistance (face_distance (fun _ _ => (1 : ℚ)/2) [[0]] [0])
             location := "Camera Feed" }] ∧
    ∀ a : Alert, jsonKeys (alertToJson a)
        = ["timestamp", "suspect_name", "suspect_details", "confidence", "location"] :=
  C7_alert_record_shape (fun _ _ => (1 : ℚ)/2) "t"
    { initial_state with
        known_faces := [[0]], known_names := ["Alice"], known_details := ["theft"] }
    [0] rfl
    (by simp [initial_state, acceptDecision, compare_faces_tol, face_distance,
          npArgmin, List.findIdx, List.findIdx.go]
        norm_num)

/-- Claim C8: starting surveillance on a camera that cannot be opened
reports failure, leaves the surveillance-active flag false, and starts no
surveillance loop. -/
theorem C8_camera_unavailable (s : SystemState) (cap : CameraCap)
    (hactive : s.surveillance_active = false) (hcap : cap.opened = false) :
    (start_surveillance s cap).ok = false ∧
      (start_surveillance s cap).state.surveillance_active = false ∧
      (start_surveillance s cap).loopStarted = false := by
  simp [start_surveillance, hactive, hcap]

/-- Witness for C8_camera_unavailable on the freshly initialised engine. -/
theorem C8_camera_unavailable_witness :
    (start_surveillance initial_state { opened := false }).ok = false ∧
      (start_surveillance initial_state { opened := false }).state.surveillance_active
          = false ∧
      (start_surveillance initial_state { opened := false }).loopStarted = false :=
  C8_camera_unavailable initial_state { opened := false } rfl rfl

/-- Claim C9: the three registry lists always have equal length — the
invariant holds initially, both registration entry points preserve it, the
alert path never touches the lists — so the best-match index produced during
detection is in bounds for the names and the details lists whenever the
registry is non-empty. -/
theorem C9_registry_lockstep (s : SystemState) (encs : List Encoding)
    (name details now : String) (c : ℚ) (dist : Encoding → Encoding → ℚ)
    (resize : Frame → Frame) (encodingsOf : Frame → List Encoding) (frame : Frame)
    (enc : Encoding) (hinv : registryInvariant s) :
    registryInvariant initial_state ∧
    registryInvariant (add_suspect s encs name details).1 ∧
    registryInvariant (add_suspect_from_array s encs name details).1 ∧
    registryInvariant (trigger_alert s now name details c).state ∧
    registryInvariant (detect_faces dist resize encodingsOf now s frame).state ∧
    (s.known_faces ≠ [] →
      npArgmin (face_distance dist s.known_faces enc) < s.known_names.length ∧
      npArgmin (face_distance dist s.known_faces enc) < s.known_details.length) := by
  have ht := trigger_alert_registry s now name details c
  have hd := detect_faces_registry dist resize encodingsOf now s frame
  simp only [registryInvariant] at hinv ⊢
  refine ⟨⟨rfl, rfl⟩, ?_, ?_, ?_, ?_, ?_⟩
  · cases encs with
    | nil => exact hinv
    | cons e es => simp [add_suspect, hinv.1, hinv.2]
  · cases encs with
    | nil => exact hinv
    | cons e es => simp [add_suspect_from_array, hinv.1, hinv.2]
  · rw [ht.1, ht.2.1, ht.2.2]
    exact hinv
  · rw [hd.1, hd.2.1, hd.2.2]
    exact hinv
  · intro hne
    have hfd : face_distance dist s.known_faces enc ≠ [] := by
      simp [face_distance, hne]
    have hlen : (face_distance dist s.known_faces enc).length = s.known_faces.length := by
      simp [face_distance]
    have h1 := npArgmin_lt_length _ hfd
    rw [hlen] at h1
    exact ⟨by rw [hinv.1]; exact h1, by rw [hinv.2]; exact h1⟩

/-- Witness for C9_registry_lockstep on a one-entry registry. -/
theorem C9_registry_lockstep_witness :
    registryInvariant initial_state ∧
    registryInvariant (add_suspect
        { initial_state with
            known_faces := [[0]], known_names := ["Alice"], known_details := ["theft"] }
        [[1]] "Bob" "fraud").1 ∧
    registryInvariant (add_suspect_from_array
        { initial_state with
            known_faces := [[0]], known_names := ["Alice"], known_details := ["theft"] }
        [[1]] "Bob" "fraud").1 ∧
    registryInvariant (trigger_alert
        { initial_state with
            known_faces := [[0]], known_names := ["Alice"], known_details := ["theft"] }
        "t" "Bob" "fraud" (1/2)).state ∧
    registryInvariant (detect_faces (fun _ _ => (1 : ℚ)/2) id (fun _ => []) "t"
        { initial_state with
            known_faces := [[0]], known_names := ["Alice"], known_details := ["theft"] }
        []).state ∧
    (({ initial_state with
          known_faces := [[0]], known_names := ["Alice"],
          known_details := ["theft"] } : SystemState).known_faces ≠ [] →
      npArgmin (face_distance (fun _ _ => (1 : ℚ)/2) [[0]] [0]) < 1 ∧
      npArgmin (face_distance (fun _ _ => (1 : ℚ)/2) [[0]] [0]) < 1) :=
  C9_registry_lockstep
    { initial_state with
        known_faces := [[0]], known_names := ["Alice"], known_details := ["theft"] }
    [[1]] "Bob" "fraud" "t" (1/2) (fun _ _ => (1 : ℚ)/2) id (fun _ => []) [] [0]
    ⟨rfl, rfl⟩

/-- Claim C10: calling start while surveillance is already active returns
false immediately, attempts no camera open, spawns no second loop, and
leaves the engine state unchanged. -/
theorem C10_start_when_active (s : SystemState) (cap : CameraCap)
    (h : s.surveillance_active = true) :
    (start_surveillance s cap).ok = false ∧
      (start_surveillance s cap).state = s ∧
      (start_surveillance s cap).cameraOpenAttempted = false ∧
      (start_surveillance s cap).loopStarted = false := by
  simp [start_surveillance, h]

/-- Witness for C10_start_when_active on an active engine. -/
theorem C10_start_when_active_witness :
    (start_surveillance { initial_state with surveillance_active := true }
        { opened := true }).ok = false ∧
      (start_surveillance { initial_state with surveillance_active := true }
          { opened := true }).state
        = { initial_state with surveillance_active := true } ∧
      (start_surveillance { initial_state with surveillance_active := true }
          { opened := true }).cameraOpenAttempted = false ∧
      (start_surveillance { initial_state with surveillance_active := true }
          { opened := true }).loopStarted = false :=
  C10_start_when_active { initial_state with surveillance_active := true }
    { opened := true } rfl

end PoliceCam
